import Mathlib

/-!
Shallow embedding of `src/scripts/python/system_health_checker.py`
(`SystemHealthChecker`): the threshold classifier, the per-subsystem
collectors, the worst-case aggregation and the ordered JSON export.

Python dictionaries become Lean structures (the `health_data` dict, which
may miss keys, becomes a structure of `Option` fields; a missing key read
becomes a `KeyError` value).  Status strings "HEALTHY"/"WARNING"/"CRITICAL"
become the enumeration `StatusLevel`.  Percentages and byte counts are
rationals.  Fallible collectors return `Except Err`.
-/

/-- The three status strings produced by `_get_status`, as an enumeration,
ordered by severity HEALTHY < WARNING < CRITICAL via `sev`. -/
inductive StatusLevel where
  | HEALTHY : StatusLevel
  | WARNING : StatusLevel
  | CRITICAL : StatusLevel
deriving DecidableEq, Repr

/-- Severity rank of a status: HEALTHY = 0, WARNING = 1, CRITICAL = 2. -/
def StatusLevel.sev : StatusLevel → Nat
  | .HEALTHY => 0
  | .WARNING => 1
  | .CRITICAL => 2

/-- The order HEALTHY < WARNING < CRITICAL, as a decidable `≤` on ranks. -/
def statusLe (a b : StatusLevel) : Prop := a.sev ≤ b.sev

instance : DecidablePred fun p : StatusLevel × StatusLevel => statusLe p.1 p.2 :=
  fun _ => by unfold statusLe; infer_instance

instance (a b : StatusLevel) : Decidable (statusLe a b) := by
  unfold statusLe; infer_instance

/-- Maximum of two statuses under HEALTHY < WARNING < CRITICAL. -/
def statusMax (a b : StatusLevel) : StatusLevel :=
  if a.sev ≤ b.sev then b else a

/-- The status string attached to a status level in the report
("HEALTHY" / "WARNING" / "CRITICAL"). -/
def statusToString : StatusLevel → String
  | .HEALTHY => "HEALTHY"
  | .WARNING => "WARNING"
  | .CRITICAL => "CRITICAL"

/-- `SystemHealthChecker._get_status` (lines 126-133): thresholds are the
literals 60 and 80 in the source.
`if percent < 60: HEALTHY elif percent < 80: WARNING else: CRITICAL`. -/
def get_status (percent : ℚ) : StatusLevel :=
  if percent < 60 then .HEALTHY
  else if percent < 80 then .WARNING
  else .CRITICAL

/-- Modelled from the spec: the parameterized classifier contract of
§4.1 `classify(percent, thresholds)` with cutoffs (w, c); the source's
`_get_status` hardcodes (60, 80).  Stated in the spec's words to be
compared against `get_status`. -/
def classify_spec (percent w c : ℚ) : StatusLevel :=
  if percent < w then .HEALTHY
  else if percent < c then .WARNING
  else .CRITICAL

/-- Python `round(x, 2)`: round half to even at two decimal places. -/
def round_half_even (x : ℚ) : ℤ :=
  let f := ⌊x⌋
  let r := x - f
  if r < 1/2 then f
  else if 1/2 < r then f + 1
  else if 2 ∣ f then f else f + 1

/-- `round(value, 2)` as used throughout the collectors. -/
def round2 (x : ℚ) : ℚ := (round_half_even (x * 100) : ℚ) / 100

/-- One gigabyte, `1024**3`. -/
def gb : ℚ := 1024 ^ 3

/-- `psutil.disk_usage` result for one partition. -/
structure Usage where
  total : ℚ
  used : ℚ
  free : ℚ
  percent : ℚ
deriving DecidableEq, Repr

/-- One `psutil.disk_partitions()` element together with the outcome of
`psutil.disk_usage(partition.mountpoint)`: `none` models the
`PermissionError` branch of `get_disk_info`. -/
structure Partition where
  device : String
  mountpoint : String
  fstype : String
  usage : Option Usage
deriving DecidableEq, Repr

/-- One entry of the `disk_data` list built by `get_disk_info`. -/
structure DiskEntry where
  device : String
  mountpoint : String
  fstype : String
  total_gb : ℚ
  used_gb : ℚ
  free_gb : ℚ
  percent_used : ℚ
  status : StatusLevel
deriving DecidableEq, Repr

/-- The dict appended for one readable partition (lines 69-80). -/
def diskEntryOf (p : Partition) (u : Usage) : DiskEntry :=
  { device := p.device
    mountpoint := p.mountpoint
    fstype := p.fstype
    total_gb := round2 (u.total / gb)
    used_gb := round2 (u.used / gb)
    free_gb := round2 (u.free / gb)
    percent_used := u.percent
    status := get_status u.percent }

/-- `SystemHealthChecker.get_disk_info` (lines 61-84): iterate the
partitions, append an entry for each readable one, `continue` silently on
`PermissionError` (the `none` case).  Total: never raises. -/
def get_disk_info : List Partition → List DiskEntry
  | [] => []
  | p :: rest =>
    match p.usage with
    | some u => diskEntryOf p u :: get_disk_info rest
    | none => get_disk_info rest

/-- `platform.*` values gathered by `get_system_info` (lines 22-31). -/
structure SystemInfo where
  hostname : String
  platform : String
  platform_version : String
  architecture : String
  processor : String
  python_version : String
deriving DecidableEq, Repr

/-- `psutil.cpu_freq()._asdict()` fields. -/
structure CpuFreq where
  current : ℚ
  minf : ℚ
  maxf : ℚ
deriving DecidableEq, Repr

/-- Raw CPU samples: `get_cpu_info` calls `psutil.cpu_percent` three
separate times (per-core, total, and once more for the status), so the
three samples are distinct provider values. -/
structure CpuRaw where
  count_physical : Nat
  count_logical : Nat
  percent_per_core : List ℚ
  percent_total : ℚ
  percent_for_status : ℚ
  freq : Option CpuFreq
deriving DecidableEq, Repr

/-- The dict returned by `get_cpu_info` (lines 33-43). -/
structure CpuInfo where
  cpu_count : Nat
  cpu_count_logical : Nat
  cpu_percent_total : ℚ
  cpu_percent_per_core : List ℚ
  cpu_freq : Option CpuFreq
  status : StatusLevel
deriving DecidableEq, Repr

/-- `SystemHealthChecker.get_cpu_info`. -/
def get_cpu_info (r : CpuRaw) : CpuInfo :=
  { cpu_count := r.count_physical
    cpu_count_logical := r.count_logical
    cpu_percent_total := r.percent_total
    cpu_percent_per_core := r.percent_per_core
    cpu_freq := r.freq
    status := get_status r.percent_for_status }

/-- Raw `psutil.virtual_memory()` / `psutil.swap_memory()` samples. -/
structure MemRaw where
  total : ℚ
  available : ℚ
  used : ℚ
  percent : ℚ
  swap_total : ℚ
  swap_used : ℚ
  swap_percent : ℚ
deriving DecidableEq, Repr

/-- The dict returned by `get_memory_info` (lines 45-59). -/
structure MemoryInfo where
  total_gb : ℚ
  available_gb : ℚ
  used_gb : ℚ
  percent_used : ℚ
  swap_total_gb : ℚ
  swap_used_gb : ℚ
  swap_percent : ℚ
  status : StatusLevel
deriving DecidableEq, Repr

/-- `SystemHealthChecker.get_memory_info`. -/
def get_memory_info (r : MemRaw) : MemoryInfo :=
  { total_gb := round2 (r.total / gb)
    available_gb := round2 (r.available / gb)
    used_gb := round2 (r.used / gb)
    percent_used := r.percent
    swap_total_gb := round2 (r.swap_total / gb)
    swap_used_gb := round2 (r.swap_used / gb)
    swap_percent := r.swap_percent
    status := get_status r.percent }

/-- Raw `psutil.net_io_counters()` sample plus the interface count. -/
structure NetRaw where
  bytes_sent : ℚ
  bytes_recv : ℚ
  packets_sent : Nat
  packets_recv : Nat
  errin : Nat
  errout : Nat
  interface_count : Nat
deriving DecidableEq, Repr

/-- The dict returned by `get_network_info` (lines 86-99); carries no
status field. -/
structure NetworkInfo where
  bytes_sent_mb : ℚ
  bytes_recv_mb : ℚ
  packets_sent : Nat
  packets_recv : Nat
  errors_in : Nat
  errors_out : Nat
  interface_count : Nat
deriving DecidableEq, Repr

/-- `SystemHealthChecker.get_network_info`. -/
def get_network_info (r : NetRaw) : NetworkInfo :=
  { bytes_sent_mb := round2 (r.bytes_sent / 1024 ^ 2)
    bytes_recv_mb := round2 (r.bytes_recv / 1024 ^ 2)
    packets_sent := r.packets_sent
    packets_recv := r.packets_recv
    errors_in := r.errin
    errors_out := r.errout
    interface_count := r.interface_count }

/-- One process as seen through `psutil.process_iter(["pid", "name",
"cpu_percent", "memory_percent"])`; `ok = false` models the
`NoSuchProcess` / `AccessDenied` skip branch, and `cpu_percent` is
optional because `p.info["cpu_percent"] or 0` guards a `None`. -/
structure ProcRaw where
  pid : Nat
  name : String
  cpu_percent : Option ℚ
  memory_percent : ℚ
  ok : Bool
deriving DecidableEq, Repr

/-- One entry of `top_cpu_processes`. -/
structure ProcEntry where
  pid : Nat
  name : String
  cpu_percent : Option ℚ
  memory_percent : ℚ
deriving DecidableEq, Repr

/-- The dict returned by `get_process_info` (lines 101-124); carries no
status field. -/
structure ProcessInfo where
  total_processes : Nat
  top_cpu_processes : List ProcEntry
deriving DecidableEq, Repr

/-- Sort key `lambda p: p.info["cpu_percent"] or 0`. -/
def procKey (p : ProcRaw) : ℚ := p.cpu_percent.getD 0

/-- `SystemHealthChecker.get_process_info`: sort descending by CPU
(stably, as Python's `sorted(..., reverse=True)`), keep the top 5, skip
processes that vanish or deny access. -/
def get_process_info (pids_count : Nat) (procs : List ProcRaw) : ProcessInfo :=
  { total_processes := pids_count
    top_cpu_processes :=
      ((procs.mergeSort (fun a b => procKey b ≤ procKey a)).take 5).filterMap
        (fun p => if p.ok then
          some { pid := p.pid, name := p.name, cpu_percent := p.cpu_percent
                 memory_percent := round2 p.memory_percent }
          else none) }

/-- Errors a collection pass can surface.  `keyError k` is Python's
`KeyError` on a missing dict key.  `aggregationError` is modelled from the
spec: the spec's §4.3 names an `AggregationError` for empty aggregation
input; no such class exists anywhere in the source. -/
inductive Err where
  | keyError (key : String) : Err
  | aggregationError : Err
deriving DecidableEq, Repr

/-- `self.health_data`: an insertion-ordered dict whose keys may be
absent before `collect_all_metrics` fills them; reading an absent key
raises `KeyError`. -/
structure HealthData where
  timestamp : Option String
  system : Option SystemInfo
  cpu : Option CpuInfo
  memory : Option MemoryInfo
  disk : Option (List DiskEntry)
  network : Option NetworkInfo
  processes : Option ProcessInfo
  overall_health : Option StatusLevel
deriving DecidableEq, Repr

/-- The fresh `OrderedDict()` of `__init__`: no keys present. -/
def emptyHealthData : HealthData :=
  { timestamp := none, system := none, cpu := none, memory := none,
    disk := none, network := none, processes := none, overall_health := none }

/-- The worst-disk reduction inside `get_overall_health` (lines 140-146):
`worst = HEALTHY; if "CRITICAL" in disk_statuses: CRITICAL
elif "WARNING" in disk_statuses: WARNING`. -/
def worst_disk_status (disk : List DiskEntry) : StatusLevel :=
  let disk_statuses := disk.map (·.status)
  if disk_statuses.contains .CRITICAL then .CRITICAL
  else if disk_statuses.contains .WARNING then .WARNING
  else .HEALTHY

/-- `SystemHealthChecker.get_overall_health` (lines 135-155): reads
`health_data["cpu"]["status"]`, `health_data["memory"]["status"]` and
`health_data["disk"]` in that order (a missing key raises `KeyError`),
reduces the disk statuses to a worst status, then takes the worst of
`[cpu_status, memory_status, worst_disk_status]` by the same
membership-check cascade. -/
def get_overall_health (d : HealthData) : Except Err StatusLevel :=
  match d.cpu with
  | none => .error (.keyError "cpu")
  | some cpu =>
    match d.memory with
    | none => .error (.keyError "memory")
    | some memory =>
      match d.disk with
      | none => .error (.keyError "disk")
      | some disk =>
        let statuses := [cpu.status, memory.status, worst_disk_status disk]
        if statuses.contains .CRITICAL then .ok .CRITICAL
        else if statuses.contains .WARNING then .ok .WARNING
        else .ok .HEALTHY

/-- JSON values as written by `json.dump`. -/
inductive Value where
  | null : Value
  | str (s : String) : Value
  | num (q : ℚ) : Value
  | nat (n : Nat) : Value
  | arr (items : List Value) : Value
  | obj (fields : List (String × Value)) : Value
deriving Repr

/-- JSON string escaping for quote and backslash. -/
def escapeChar (c : Char) : String :=
  if c = '"' then "\\\"" else if c = '\\' then "\\\\" else String.singleton c

/-- Escape every character of a string. -/
def escapeString (s : String) : String :=
  String.join (s.toList.map escapeChar)

/-- A quoted JSON string. -/
def renderString (s : String) : String :=
  "\"" ++ escapeString s ++ "\""

/-- Deterministic rendering of a rational: integers without a
denominator. -/
def ratToString (q : ℚ) : String :=
  if q.den = 1 then toString q.num else toString q

/-- `indent=2` padding at nesting level `lvl`. -/
def pad (lvl : Nat) : String :=
  String.mk (List.replicate (2 * lvl) ' ')

mutual

/-- `json.dump(v, f, indent=2)` rendering of one value at nesting level
`lvl`. -/
def renderValue (lvl : Nat) : Value → String
  | .null => "null"
  | .str s => renderString s
  | .num q => ratToString q
  | .nat n => toString n
  | .arr [] => "[]"
  | .arr (v :: vs) =>
    "[\n" ++ renderItems lvl (v :: vs) ++ "\n" ++ pad lvl ++ "]"
  | .obj [] => "\x7b\x7d"
  | .obj (f :: fs) =>
    "\x7b\n" ++ renderFields lvl (f :: fs) ++ "\n" ++ pad lvl ++ "\x7d"

/-- Comma-and-newline separated array items, each on its own line. -/
def renderItems (lvl : Nat) : List Value → String
  | [] => ""
  | [v] => pad (lvl + 1) ++ renderValue (lvl + 1) v
  | v :: v2 :: vs =>
    pad (lvl + 1) ++ renderValue (lvl + 1) v ++ ",\n" ++ renderItems lvl (v2 :: vs)

/-- Comma-and-newline separated object fields, in the dict's insertion
order. -/
def renderFields (lvl : Nat) : List (String × Value) → String
  | [] => ""
  | [(k, v)] => pad (lvl + 1) ++ renderString k ++ ": " ++ renderValue (lvl + 1) v
  | (k, v) :: f2 :: fs =>
    pad (lvl + 1) ++ renderString k ++ ": " ++ renderValue (lvl + 1) v ++ ",\n"
      ++ renderFields lvl (f2 :: fs)

end

/-- The `get_system_info` dict as a JSON object, keys in dict-literal
order. -/
def SystemInfo.toValue (s : SystemInfo) : Value :=
  .obj [("hostname", .str s.hostname),
        ("platform", .str s.platform),
        ("platform_version", .str s.platform_version),
        ("architecture", .str s.architecture),
        ("processor", .str s.processor),
        ("python_version", .str s.python_version)]

/-- `psutil.cpu_freq()._asdict()` as a JSON object. -/
def CpuFreq.toValue (f : CpuFreq) : Value :=
  .obj [("current", .num f.current), ("min", .num f.minf), ("max", .num f.maxf)]

/-- The `get_cpu_info` dict as a JSON object, keys in dict-literal
order. -/
def CpuInfo.toValue (c : CpuInfo) : Value :=
  .obj [("cpu_count", .nat c.cpu_count),
        ("cpu_count_logical", .nat c.cpu_count_logical),
        ("cpu_percent_total", .num c.cpu_percent_total),
        ("cpu_percent_per_core", .arr (c.cpu_percent_per_core.map .num)),
        ("cpu_freq", match c.cpu_freq with
          | some f => f.toValue
          | none => .null),
        ("status", .str (statusToString c.status))]

/-- The `get_memory_info` dict as a JSON object, keys in dict-literal
order. -/
def MemoryInfo.toValue (m : MemoryInfo) : Value :=
  .obj [("total_gb", .num m.total_gb),
        ("available_gb", .num m.available_gb),
        ("used_gb", .num m.used_gb),
        ("percent_used", .num m.percent_used),
        ("swap_total_gb", .num m.swap_total_gb),
        ("swap_used_gb", .num m.swap_used_gb),
        ("swap_percent", .num m.swap_percent),
        ("status", .str (statusToString m.status))]

/-- One `disk_data` entry as a JSON object, keys in dict-literal order. -/
def DiskEntry.toValue (e : DiskEntry) : Value :=
  .obj [("device", .str e.device),
        ("mountpoint", .str e.mountpoint),
        ("fstype", .str e.fstype),
        ("total_gb", .num e.total_gb),
        ("used_gb", .num e.used_gb),
        ("free_gb", .num e.free_gb),
        ("percent_used", .num e.percent_used),
        ("status", .str (statusToString e.status))]

/-- The `get_network_info` dict as a JSON object, keys in dict-literal
order. -/
def NetworkInfo.toValue (n : NetworkInfo) : Value :=
  .obj [("bytes_sent_mb", .num n.bytes_sent_mb),
        ("bytes_recv_mb", .num n.bytes_recv_mb),
        ("packets_sent", .nat n.packets_sent),
        ("packets_recv", .nat n.packets_recv),
        ("errors_in", .nat n.errors_in),
        ("errors_out", .nat n.errors_out),
        ("interface_count", .nat n.interface_count)]

/-- One `top_cpu_processes` entry as a JSON object. -/
def ProcEntry.toValue (p : ProcEntry) : Value :=
  .obj [("pid", .nat p.pid),
        ("name", .str p.name),
        ("cpu_percent", match p.cpu_percent with
          | some q => .num q
          | none => .null),
        ("memory_percent", .num p.memory_percent)]

/-- The `get_process_info` dict as a JSON object. -/
def ProcessInfo.toValue (p : ProcessInfo) : Value :=
  .obj [("total_processes", .nat p.total_processes),
        ("top_cpu_processes", .arr (p.top_cpu_processes.map ProcEntry.toValue))]

/-- A dict key that is present contributes one field; an absent key
contributes none. -/
def optField (k : String) : Option Value → List (String × Value)
  | some v => [(k, v)]
  | none => []

/-- The `health_data` dict as an ordered field list: keys appear in the
insertion order of `collect_all_metrics` (timestamp, system, cpu, memory,
disk, network, processes, overall_health), each present only once
inserted. -/
def HealthData.toFields (d : HealthData) : List (String × Value) :=
  optField "timestamp" (d.timestamp.map .str)
    ++ optField "system" (d.system.map SystemInfo.toValue)
    ++ optField "cpu" (d.cpu.map CpuInfo.toValue)
    ++ optField "memory" (d.memory.map MemoryInfo.toValue)
    ++ optField "disk" (d.disk.map (fun ds => .arr (ds.map DiskEntry.toValue)))
    ++ optField "network" (d.network.map NetworkInfo.toValue)
    ++ optField "processes" (d.processes.map ProcessInfo.toValue)
    ++ optField "overall_health"
        (d.overall_health.map (fun s => .str (statusToString s)))

/-- `SystemHealthChecker.export_to_json` (lines 236-240): the bytes
`json.dump(self.health_data, f, indent=2)` writes. -/
def export_to_json (d : HealthData) : String :=
  renderValue 0 (.obj d.toFields)

/-- `SystemHealthChecker.get_system_info`: the provider hands the six
`platform.*` strings; the function returns them as a record. -/
def get_system_info (raw : SystemInfo) : SystemInfo := raw

/-- One collection pass's raw provider samples: everything the `psutil` /
`platform` / `datetime` collaborators hand the checker. -/
structure ProviderState where
  timestamp : String
  system : SystemInfo
  cpu : CpuRaw
  memory : MemRaw
  partitions : List Partition
  network : NetRaw
  pids_count : Nat
  procs : List ProcRaw
deriving DecidableEq, Repr

/-- `SystemHealthChecker.collect_all_metrics` (lines 157-170), first
seven insertions: fill `health_data` in the fixed insertion order
timestamp, system, cpu, memory, disk, network, processes; the
`overall_health` key is not yet present. -/
def preReport (p : ProviderState) : HealthData :=
  { timestamp := some p.timestamp
    system := some (get_system_info p.system)
    cpu := some (get_cpu_info p.cpu)
    memory := some (get_memory_info p.memory)
    disk := some (get_disk_info p.partitions)
    network := some (get_network_info p.network)
    processes := some (get_process_info p.pids_count p.procs)
    overall_health := none }

/-- The final step of `collect_all_metrics`: insert
`overall_health = get_overall_health()` into the dict built so far. -/
def collect_all_metrics (p : ProviderState) : Except Err HealthData :=
  match get_overall_health (preReport p) with
  | .ok ov => .ok { preReport p with overall_health := some ov }
  | .error e => .error e

/-! ### Shared lemmas about the worst-case reduction -/

/-- The membership-check cascade of the source (`if "CRITICAL" in ... elif
"WARNING" in ...`) computes the fold of `statusMax` over the list. -/
theorem contains_cascade (l : List StatusLevel) :
    (if l.contains .CRITICAL then StatusLevel.CRITICAL
     else if l.contains .WARNING then .WARNING else .HEALTHY)
      = l.foldr statusMax .HEALTHY := by
  induction l with
  | nil => rfl
  | cons a l ih =>
    cases a <;> simp only [List.contains_cons, List.foldr_cons, ← ih] <;>
      split_ifs <;> simp_all [statusMax, StatusLevel.sev]

/-- The worst status is CRITICAL exactly when some status is CRITICAL. -/
theorem fold_eq_crit (l : List StatusLevel) :
    l.foldr statusMax .HEALTHY = .CRITICAL ↔ .CRITICAL ∈ l := by
  induction l with
  | nil => simp
  | cons a l ih =>
    rcases h : l.foldr statusMax .HEALTHY <;> cases a <;>
      simp_all [statusMax, StatusLevel.sev]

/-- The worst status is WARNING exactly when no status is CRITICAL and
some status is WARNING. -/
theorem fold_eq_warn (l : List StatusLevel) :
    l.foldr statusMax .HEALTHY = .WARNING ↔ .CRITICAL ∉ l ∧ .WARNING ∈ l := by
  induction l with
  | nil => simp
  | cons a l ih =>
    have hc := fold_eq_crit l
    simp only [List.foldr_cons, List.mem_cons]
    rcases hF : l.foldr statusMax .HEALTHY with _ | _ | _ <;> rw [hF] at ih hc
    · have h1 : StatusLevel.CRITICAL ∉ l := fun h => StatusLevel.noConfusion (hc.mpr h)
      have h2 : StatusLevel.WARNING ∉ l := fun h => StatusLevel.noConfusion (ih.mpr ⟨h1, h⟩)
      cases a <;> simp [statusMax, StatusLevel.sev, h1, h2]
    · obtain ⟨h1, h2⟩ := ih.mp rfl
      cases a <;> simp [statusMax, StatusLevel.sev, h1, h2]
    · have h1 : StatusLevel.CRITICAL ∈ l := hc.mp rfl
      cases a <;> simp [statusMax, StatusLevel.sev, h1]

/-- The worst status is HEALTHY exactly when no status is CRITICAL or
WARNING. -/
theorem fold_eq_healthy (l : List StatusLevel) :
    l.foldr statusMax .HEALTHY = .HEALTHY ↔
      .CRITICAL ∉ l ∧ .WARNING ∉ l := by
  constructor
  · intro h
    have h1 : StatusLevel.CRITICAL ∉ l := fun hc => by
      rw [(fold_eq_crit l).mpr hc] at h; exact StatusLevel.noConfusion h
    refine ⟨h1, fun hw => ?_⟩
    rw [(fold_eq_warn l).mpr ⟨h1, hw⟩] at h; exact StatusLevel.noConfusion h
  · rintro ⟨h1, h2⟩
    rcases hF : l.foldr statusMax .HEALTHY with _ | _ | _
    · rfl
    · exact absurd ((fold_eq_warn l).mp hF).2 h2
    · exact absurd ((fold_eq_crit l).mp hF) h1

/-- The source's worst-disk cascade equals the `statusMax` fold over the
per-partition statuses. -/
theorem worst_disk_eq_fold (ds : List DiskEntry) :
    worst_disk_status ds = (ds.map (·.status)).foldr statusMax .HEALTHY := by
  unfold worst_disk_status
  exact contains_cascade _

/-- With the cpu, memory and disk keys present, `get_overall_health`
succeeds and returns the `statusMax` fold of
`[cpu_status, memory_status, worst_disk_status]`. -/
theorem get_overall_health_eq (d : HealthData) (c : CpuInfo) (m : MemoryInfo)
    (ds : List DiskEntry) (hc : d.cpu = some c) (hm : d.memory = some m)
    (hd : d.disk = some ds) :
    get_overall_health d
      = .ok (([c.status, m.status, worst_disk_status ds]).foldr statusMax .HEALTHY) := by
  simp only [get_overall_health, hc, hm, hd]
  rw [← contains_cascade]
  split_ifs <;> rfl

/-! ### C2 and C10: the threshold classifier -/

/-- C2: for every percent p and thresholds (w, c) with w < c, the
classifier returns HEALTHY when p < w, WARNING when w ≤ p < c and
CRITICAL when p ≥ c; it is total, p > 100 is classified CRITICAL, and the
source's `_get_status` is exactly this classifier at the default
thresholds (60, 80) — the only thresholds the source instantiates. -/
theorem classifier_contract (p w c : ℚ) (hwc : w < c) :
    (p < w → classify_spec p w c = .HEALTHY) ∧
    (w ≤ p → p < c → classify_spec p w c = .WARNING) ∧
    (c ≤ p → classify_spec p w c = .CRITICAL) ∧
    get_status p = classify_spec p 60 80 ∧
    (100 < p → get_status p = .CRITICAL) := by
  refine ⟨fun h => ?_, fun h1 h2 => ?_, fun h => ?_, ?_, fun h => ?_⟩
  · simp [classify_spec, h]
  · unfold classify_spec
    rw [if_neg (not_lt.mpr h1), if_pos h2]
  · unfold classify_spec
    split_ifs with h1 h2
    · linarith
    · linarith
    · rfl
  · rfl
  · unfold get_status
    split_ifs with h1 h2
    · linarith
    · linarith
    · rfl

/-- Witness for C2: the contract applied at p = 90 with the default
thresholds (60, 80). -/
theorem classifier_contract_witness :
    (60:ℚ) < 80 ∧
    (((90:ℚ) < 60 → classify_spec 90 60 80 = .HEALTHY) ∧
     ((60:ℚ) ≤ 90 → (90:ℚ) < 80 → classify_spec 90 60 80 = .WARNING) ∧
     ((80:ℚ) ≤ 90 → classify_spec 90 60 80 = .CRITICAL) ∧
     get_status 90 = classify_spec 90 60 80 ∧
     ((100:ℚ) < 90 → get_status 90 = .CRITICAL)) :=
  ⟨by norm_num, classifier_contract 90 60 80 (by norm_num)⟩

/-- C10: the classifier is monotone: p1 ≤ p2 implies the status of p1 is
at most the status of p2 under HEALTHY < WARNING < CRITICAL, so raising a
measured percentage never lowers the reported severity. -/
theorem get_status_monotone (p1 p2 : ℚ) (h : p1 ≤ p2) :
    statusLe (get_status p1) (get_status p2) := by
  unfold get_status statusLe
  split_ifs <;> simp [StatusLevel.sev] <;> linarith

/-- Witness for C10: monotonicity applied at 30 ≤ 90. -/
theorem get_status_monotone_witness :
    (30:ℚ) ≤ 90 ∧ statusLe (get_status 30) (get_status 90) :=
  ⟨by norm_num, get_status_monotone 30 90 (by norm_num)⟩

/-! ### C1, C4, C9: worst-case aggregation -/

/-- The statuses of the non-empty status-bearing subsystem reports: the
cpu and memory reports always carry one classified sample; the disk
report's status is the worst of its partitions and exists only when the
partition list is non-empty; the network and process reports carry no
status in the source. -/
def contributingStatuses (c m : StatusLevel) (ds : List DiskEntry) :
    List StatusLevel :=
  [c, m] ++ if ds.isEmpty then [] else [worst_disk_status ds]

/-- C1: with at least one non-empty subsystem report present (cpu and
memory always are), the overall status is the maximum StatusLevel over
the non-empty subsystem reports, and it is CRITICAL iff one of them is
CRITICAL, else WARNING iff one of them is WARNING, else HEALTHY. -/
theorem overall_is_max (d : HealthData) (c : CpuInfo) (m : MemoryInfo)
    (ds : List DiskEntry) (hc : d.cpu = some c) (hm : d.memory = some m)
    (hd : d.disk = some ds) :
    get_overall_health d
        = .ok ((contributingStatuses c.status m.status ds).foldr statusMax .HEALTHY) ∧
    (get_overall_health d = .ok .CRITICAL ↔
        .CRITICAL ∈ contributingStatuses c.status m.status ds) ∧
    (get_overall_health d = .ok .WARNING ↔
        .CRITICAL ∉ contributingStatuses c.status m.status ds ∧
        .WARNING ∈ contributingStatuses c.status m.status ds) ∧
    (get_overall_health d = .ok .HEALTHY ↔
        .CRITICAL ∉ contributingStatuses c.status m.status ds ∧
        .WARNING ∉ contributingStatuses c.status m.status ds) := by
  rw [get_overall_health_eq d c m ds hc hm hd]
  simp only [Except.ok.injEq]
  rcases ds with _ | ⟨e, es⟩
  · refine ⟨rfl, ?_, ?_, ?_⟩
    · rw [fold_eq_crit]
      simp [contributingStatuses, worst_disk_status]
    · rw [fold_eq_warn]
      simp [contributingStatuses, worst_disk_status]
    · rw [fold_eq_healthy]
      simp [contributingStatuses, worst_disk_status]
  · simp only [contributingStatuses, List.isEmpty_cons, if_neg, Bool.false_eq_true,
      not_false_iff, List.cons_append, List.nil_append]
    exact ⟨trivial, fold_eq_crit _, fold_eq_warn _, fold_eq_healthy _⟩

/-- Example cpu report with a chosen status. -/
def exCpuInfo (total : ℚ) (s : StatusLevel) : CpuInfo :=
  { cpu_count := 4, cpu_count_logical := 8, cpu_percent_total := total,
    cpu_percent_per_core := [], cpu_freq := none, status := s }

/-- Example memory report with a chosen status. -/
def exMemInfo (s : StatusLevel) : MemoryInfo :=
  { total_gb := 8, available_gb := 4, used_gb := 4, percent_used := 50,
    swap_total_gb := 0, swap_used_gb := 0, swap_percent := 0, status := s }

/-- Example disk entry with a chosen device, percent and status. -/
def exDiskEntry (dev : String) (pct : ℚ) (s : StatusLevel) : DiskEntry :=
  { device := dev, mountpoint := "/", fstype := "ext4", total_gb := 100,
    used_gb := pct, free_gb := 100 - pct, percent_used := pct, status := s }

/-- Example network report with a chosen sent-bytes counter. -/
def exNet (sent : ℚ) : NetworkInfo :=
  { bytes_sent_mb := sent, bytes_recv_mb := 0, packets_sent := 0,
    packets_recv := 0, errors_in := 0, errors_out := 0, interface_count := 1 }

/-- Example health_data dict after collection, with chosen timestamp,
cpu total, cpu/memory statuses, disk entries and network counter. -/
def exHealthData (ts : String) (ctotal : ℚ) (cs ms : StatusLevel)
    (ds : List DiskEntry) (sent : ℚ) : HealthData :=
  { timestamp := some ts, system := none, cpu := some (exCpuInfo ctotal cs),
    memory := some (exMemInfo ms), disk := some ds,
    network := some (exNet sent), processes := none, overall_health := none }

/-- Witness for C1: cpu WARNING, memory HEALTHY, one CRITICAL disk
partition: the overall status is the maximum, CRITICAL. -/
theorem overall_is_max_witness :
    (exHealthData "t" 50 .WARNING .HEALTHY [exDiskEntry "/dev/sda1" 95 .CRITICAL] 0).cpu
        = some (exCpuInfo 50 .WARNING) ∧
    (exHealthData "t" 50 .WARNING .HEALTHY [exDiskEntry "/dev/sda1" 95 .CRITICAL] 0).memory
        = some (exMemInfo .HEALTHY) ∧
    (exHealthData "t" 50 .WARNING .HEALTHY [exDiskEntry "/dev/sda1" 95 .CRITICAL] 0).disk
        = some [exDiskEntry "/dev/sda1" 95 .CRITICAL] ∧
    (get_overall_health (exHealthData "t" 50 .WARNING .HEALTHY [exDiskEntry "/dev/sda1" 95 .CRITICAL] 0)
        = .ok ((contributingStatuses (exCpuInfo 50 .WARNING).status (exMemInfo .HEALTHY).status
            [exDiskEntry "/dev/sda1" 95 .CRITICAL]).foldr statusMax .HEALTHY) ∧
      (get_overall_health (exHealthData "t" 50 .WARNING .HEALTHY [exDiskEntry "/dev/sda1" 95 .CRITICAL] 0)
          = .ok .CRITICAL ↔
        .CRITICAL ∈ contributingStatuses (exCpuInfo 50 .WARNING).status (exMemInfo .HEALTHY).status
            [exDiskEntry "/dev/sda1" 95 .CRITICAL]) ∧
      (get_overall_health (exHealthData "t" 50 .WARNING .HEALTHY [exDiskEntry "/dev/sda1" 95 .CRITICAL] 0)
          = .ok .WARNING ↔
        .CRITICAL ∉ contributingStatuses (exCpuInfo 50 .WARNING).status (exMemInfo .HEALTHY).status
            [exDiskEntry "/dev/sda1" 95 .CRITICAL] ∧
        .WARNING ∈ contributingStatuses (exCpuInfo 50 .WARNING).status (exMemInfo .HEALTHY).status
            [exDiskEntry "/dev/sda1" 95 .CRITICAL]) ∧
      (get_overall_health (exHealthData "t" 50 .WARNING .HEALTHY [exDiskEntry "/dev/sda1" 95 .CRITICAL] 0)
          = .ok .HEALTHY ↔
        .CRITICAL ∉ contributingStatuses (exCpuInfo 50 .WARNING).status (exMemInfo .HEALTHY).status
            [exDiskEntry "/dev/sda1" 95 .CRITICAL] ∧
        .WARNING ∉ contributingStatuses (exCpuInfo 50 .WARNING).status (exMemInfo .HEALTHY).status
            [exDiskEntry "/dev/sda1" 95 .CRITICAL])) :=
  ⟨rfl, rfl, rfl, overall_is_max _ _ _ _ rfl rfl rfl⟩

/-- All partitions unreadable: `get_disk_info` returns the empty list. -/
theorem get_disk_info_all_fail (parts : List Partition)
    (hall : ∀ p ∈ parts, p.usage = none) : get_disk_info parts = [] := by
  induction parts with
  | nil => rfl
  | cons p rest ih =>
    have hp := hall p (List.mem_cons_self p rest)
    simp only [get_disk_info, hp]
    exact ih fun q hq => hall q (List.mem_cons_of_mem p hq)

/-- C4: when every disk item fails, the disk report is the empty list (no
status is attached to it), and the aggregation result is exactly the
worst-case reduction over the remaining status-bearing reports (cpu and
memory alone): the empty subsystem is neutral. -/
theorem empty_subsystem_neutral (d : HealthData) (c : CpuInfo) (m : MemoryInfo)
    (parts : List Partition) (hall : ∀ p ∈ parts, p.usage = none)
    (hc : d.cpu = some c) (hm : d.memory = some m)
    (hd : d.disk = some (get_disk_info parts)) :
    get_disk_info parts = [] ∧
    get_overall_health d = .ok (([c.status, m.status]).foldr statusMax .HEALTHY) := by
  have hempty := get_disk_info_all_fail parts hall
  rw [hempty] at hd
  refine ⟨hempty, ?_⟩
  rw [get_overall_health_eq d c m [] hc hm hd]
  rfl

/-- Witness for C4: one unreadable partition, cpu WARNING, memory
HEALTHY: the disk report is empty and the overall status is the
cpu/memory reduction, WARNING. -/
theorem empty_subsystem_neutral_witness :
    (∀ p ∈ [Partition.mk "/dev/bad" "/bad" "ext4" none], p.usage = none) ∧
    (exHealthData "t" 50 .WARNING .HEALTHY
        (get_disk_info [Partition.mk "/dev/bad" "/bad" "ext4" none]) 0).cpu
      = some (exCpuInfo 50 .WARNING) ∧
    (get_disk_info [Partition.mk "/dev/bad" "/bad" "ext4" none] = [] ∧
      get_overall_health (exHealthData "t" 50 .WARNING .HEALTHY
          (get_disk_info [Partition.mk "/dev/bad" "/bad" "ext4" none]) 0)
        = .ok (([(exCpuInfo 50 .WARNING).status, (exMemInfo .HEALTHY).status]).foldr
            statusMax .HEALTHY)) :=
  ⟨by simp, rfl,
    empty_subsystem_neutral _ _ _ [Partition.mk "/dev/bad" "/bad" "ext4" none]
      (by simp) rfl rfl rfl⟩

/-- C9: the overall verdict depends only on the cpu status, the memory
status and the list of per-partition disk statuses: two health_data
dicts agreeing on those three agree on the verdict, whatever their
timestamps, system info, network counters or process data. -/
theorem overall_noninterference (d1 d2 : HealthData) (c1 c2 : CpuInfo)
    (m1 m2 : MemoryInfo) (ds1 ds2 : List DiskEntry)
    (hc1 : d1.cpu = some c1) (hm1 : d1.memory = some m1) (hd1 : d1.disk = some ds1)
    (hc2 : d2.cpu = some c2) (hm2 : d2.memory = some m2) (hd2 : d2.disk = some ds2)
    (hcs : c1.status = c2.status) (hms : m1.status = m2.status)
    (hds : ds1.map (·.status) = ds2.map (·.status)) :
    get_overall_health d1 = get_overall_health d2 := by
  rw [get_overall_health_eq d1 c1 m1 ds1 hc1 hm1 hd1,
      get_overall_health_eq d2 c2 m2 ds2 hc2 hm2 hd2,
      hcs, hms, worst_disk_eq_fold, worst_disk_eq_fold, hds]

/-- Witness for C9: two dicts with different timestamps, cpu totals,
disk devices and percents, and network counters, but identical statuses:
same verdict. -/
theorem overall_noninterference_witness :
    (exHealthData "2024-01-01" 50 .WARNING .HEALTHY [exDiskEntry "/dev/sda1" 95 .CRITICAL] 0).cpu
        = some (exCpuInfo 50 .WARNING) ∧
    (exHealthData "2025-06-30" 70 .WARNING .HEALTHY [exDiskEntry "/dev/sdb2" 99 .CRITICAL] 512).cpu
        = some (exCpuInfo 70 .WARNING) ∧
    (exCpuInfo 50 .WARNING).status = (exCpuInfo 70 .WARNING).status ∧
    (exMemInfo .HEALTHY).status = (exMemInfo .HEALTHY).status ∧
    ([exDiskEntry "/dev/sda1" 95 .CRITICAL].map (·.status)
        = [exDiskEntry "/dev/sdb2" 99 .CRITICAL].map (·.status)) ∧
    get_overall_health
        (exHealthData "2024-01-01" 50 .WARNING .HEALTHY [exDiskEntry "/dev/sda1" 95 .CRITICAL] 0)
      = get_overall_health
        (exHealthData "2025-06-30" 70 .WARNING .HEALTHY [exDiskEntry "/dev/sdb2" 99 .CRITICAL] 512) :=
  ⟨rfl, rfl, rfl, rfl, rfl,
    overall_noninterference _ _ _ _ _ _ _ _ rfl rfl rfl rfl rfl rfl rfl rfl rfl⟩

/-! ### C6: disk status is the worst partition status -/

/-- Scenario 3's partitions: one at 95% used, one at 10% used. -/
def scenarioParts : List Partition :=
  [{ device := "/dev/sda1", mountpoint := "/", fstype := "ext4",
     usage := some { total := 100 * gb, used := 95 * gb, free := 5 * gb, percent := 95 } },
   { device := "/dev/sdb1", mountpoint := "/home", fstype := "ext4",
     usage := some { total := 100 * gb, used := 10 * gb, free := 90 * gb, percent := 10 } }]

/-- Scenario 3's health_data: cpu and memory HEALTHY, disk entries
produced by `get_disk_info` on the two partitions. -/
def scenarioData : HealthData :=
  exHealthData "t" 10 .HEALTHY .HEALTHY (get_disk_info scenarioParts) 0

/-- C6: for every non-empty disk entry list the subsystem's worst-disk
status is the maximum per-partition status (CRITICAL exactly when some
partition is CRITICAL); in particular, scenario 3 — partitions at 95%
and 10% under thresholds 60/80, cpu and memory HEALTHY — yields disk
status CRITICAL and overall CRITICAL. -/
theorem disk_worst_of_partitions (ds : List DiskEntry) (hne : ds ≠ []) :
    worst_disk_status ds = (ds.map (·.status)).foldr statusMax .HEALTHY ∧
    (worst_disk_status ds = .CRITICAL ↔ .CRITICAL ∈ ds.map (·.status)) ∧
    worst_disk_status (get_disk_info scenarioParts) = .CRITICAL ∧
    get_overall_health scenarioData = .ok .CRITICAL := by
  refine ⟨worst_disk_eq_fold ds, ?_, rfl, rfl⟩
  rw [worst_disk_eq_fold]
  exact fold_eq_crit _

/-- Witness for C6: the worst of a CRITICAL and a HEALTHY partition. -/
theorem disk_worst_of_partitions_witness :
    ([exDiskEntry "/dev/sda1" 95 .CRITICAL, exDiskEntry "/dev/sdb1" 10 .HEALTHY]
        ≠ ([] : List DiskEntry)) ∧
    (worst_disk_status [exDiskEntry "/dev/sda1" 95 .CRITICAL, exDiskEntry "/dev/sdb1" 10 .HEALTHY]
        = (([exDiskEntry "/dev/sda1" 95 .CRITICAL,
             exDiskEntry "/dev/sdb1" 10 .HEALTHY]).map (·.status)).foldr statusMax .HEALTHY ∧
     (worst_disk_status [exDiskEntry "/dev/sda1" 95 .CRITICAL, exDiskEntry "/dev/sdb1" 10 .HEALTHY]
          = .CRITICAL ↔
        .CRITICAL ∈ ([exDiskEntry "/dev/sda1" 95 .CRITICAL,
                      exDiskEntry "/dev/sdb1" 10 .HEALTHY]).map (·.status)) ∧
     worst_disk_status (get_disk_info scenarioParts) = .CRITICAL ∧
     get_overall_health scenarioData = .ok .CRITICAL) :=
  ⟨by simp, disk_worst_of_partitions _ (by simp)⟩

/-! ### C3: partial failure of one disk partition -/

/-- `get_disk_info` keeps exactly the readable partitions. -/
theorem get_disk_info_length (parts : List Partition) :
    (get_disk_info parts).length = parts.countP (fun p => p.usage.isSome) := by
  induction parts with
  | nil => rfl
  | cons p rest ih =>
    rcases hp : p.usage with _ | u <;>
      simp [get_disk_info, hp, List.countP_cons, ih]

/-- `get_disk_info` is the filterMap of the per-partition success
results: the output holds one entry per readable partition and nothing
else — in particular nothing derived from an unreadable one. -/
theorem get_disk_info_filterMap (parts : List Partition) :
    get_disk_info parts = parts.filterMap (fun p => p.usage.map (diskEntryOf p)) := by
  induction parts with
  | nil => rfl
  | cons p rest ih =>
    rcases hp : p.usage with _ | u <;> simp [get_disk_info, hp, ih]

/-- Readable and unreadable partitions partition the partition list. -/
theorem countP_usage_split (parts : List Partition) :
    parts.countP (fun p => p.usage.isSome)
      + parts.countP (fun p => p.usage.isNone) = parts.length := by
  induction parts with
  | nil => rfl
  | cons p rest ih =>
    rcases hp : p.usage with _ | u <;>
      simp [List.countP_cons, hp] <;> omega

/-- A readable partition at 40% used. -/
def goodPart : Partition :=
  { device := "/dev/sda1", mountpoint := "/", fstype := "ext4",
    usage := some { total := 100 * gb, used := 40 * gb, free := 60 * gb, percent := 40 } }

/-- A partition whose usage read raises `PermissionError`. -/
def badPart : Partition :=
  { device := "/dev/bad", mountpoint := "/locked", fstype := "ext4", usage := none }

/-- Counterexample for C3 as stated: with two partitions of which one
raises a permission failure, the report is exactly the single surviving
entry — N−1 = 1 partition entries and NO skip diagnostic: no element of
the result mentions the excluded partition's device or mountpoint, and
the return value carries nothing besides the partition entries. -/
theorem disk_skip_no_diagnostic :
    get_disk_info [goodPart, badPart]
        = [diskEntryOf goodPart { total := 100 * gb, used := 40 * gb,
                                  free := 60 * gb, percent := 40 }] ∧
    (get_disk_info [goodPart, badPart]).length = 1 ∧
    ∀ e ∈ get_disk_info [goodPart, badPart],
      e.device ≠ "/dev/bad" ∧ e.mountpoint ≠ "/locked" := by
  refine ⟨rfl, rfl, ?_⟩
  intro e he
  have hv : get_disk_info [goodPart, badPart]
      = [diskEntryOf goodPart { total := 100 * gb, used := 40 * gb,
                                free := 60 * gb, percent := 40 }] := rfl
  rw [hv, List.mem_singleton] at he
  subst he
  exact ⟨by decide, by decide⟩

/-- C3 amended: with exactly one of N partitions failing, evaluation
never raises and returns exactly N−1 partition entries (the filterMap of
the per-partition successes); the excluded partition is dropped silently
— the source records no skip diagnostic. -/
theorem disk_partial_failure (parts : List Partition)
    (hone : parts.countP (fun p => p.usage.isNone) = 1) :
    (get_disk_info parts).length = parts.length - 1 ∧
    get_disk_info parts = parts.filterMap (fun p => p.usage.map (diskEntryOf p)) := by
  refine ⟨?_, get_disk_info_filterMap parts⟩
  have hlen := countP_usage_split parts
  rw [get_disk_info_length]
  omega

/-- Witness for C3 amended: two partitions, one failing, one entry. -/
theorem disk_partial_failure_witness :
    ([goodPart, badPart].countP (fun p => p.usage.isNone) = 1) ∧
    ((get_disk_info [goodPart, badPart]).length = [goodPart, badPart].length - 1 ∧
     get_disk_info [goodPart, badPart]
        = [goodPart, badPart].filterMap (fun p => p.usage.map (diskEntryOf p))) :=
  ⟨rfl, disk_partial_failure _ rfl⟩

/-! ### C5: aggregation with zero subsystem reports -/

/-- Counterexample for C5 as stated: on the empty health_data dict the
aggregation fails with `KeyError("cpu")` — Python's missing-key error —
which is not the spec's `AggregationError` (no such class exists in the
source). -/
theorem aggregation_empty_keyerror :
    get_overall_health emptyHealthData = .error (.keyError "cpu") ∧
    Err.keyError "cpu" ≠ Err.aggregationError :=
  ⟨rfl, by decide⟩

/-- C5 amended: called with no subsystem reports collected (the cpu key
absent), aggregation raises `KeyError("cpu")` rather than an
`AggregationError`; no status — in particular not HEALTHY — is
returned. -/
theorem aggregation_empty_fails (d : HealthData) (h : d.cpu = none) :
    get_overall_health d = .error (.keyError "cpu") ∧
    get_overall_health d ≠ .ok .HEALTHY := by
  have he : get_overall_health d = .error (.keyError "cpu") := by
    simp [get_overall_health, h]
  exact ⟨he, fun hs => by rw [he] at hs; exact Except.noConfusion hs⟩

/-- Witness for C5 amended: the empty dict of a fresh checker. -/
theorem aggregation_empty_fails_witness :
    emptyHealthData.cpu = none ∧
    (get_overall_health emptyHealthData = .error (.keyError "cpu") ∧
     get_overall_health emptyHealthData ≠ .ok .HEALTHY) :=
  ⟨rfl, aggregation_empty_fails emptyHealthData rfl⟩

/-! ### C7 and C8: the structured export -/

/-- Every overall status renders as one of the three status strings. -/
theorem statusToString_mem (s : StatusLevel) :
    statusToString s ∈ ["HEALTHY", "WARNING", "CRITICAL"] := by
  cases s <;> decide

/-- C7: every collection pass succeeds and serializes its dict with the
keys in the fixed insertion order timestamp, system, cpu, memory, disk,
network, processes, overall_health, and the overall status string is one
of HEALTHY, WARNING, CRITICAL. -/
theorem export_field_order (p : ProviderState) :
    ∃ d, collect_all_metrics p = .ok d ∧
      d.toFields.map Prod.fst
        = ["timestamp", "system", "cpu", "memory", "disk", "network",
           "processes", "overall_health"] ∧
      ∃ ov, d.overall_health = some ov ∧
        statusToString ov ∈ ["HEALTHY", "WARNING", "CRITICAL"] := by
  unfold collect_all_metrics
  rw [get_overall_health_eq (preReport p) (get_cpu_info p.cpu)
      (get_memory_info p.memory) (get_disk_info p.partitions) rfl rfl rfl]
  exact ⟨_, rfl, rfl, _, rfl, statusToString_mem _⟩

/-- C8: the structured export is a deterministic pure function of the
report's contents — rendering the same health_data twice yields
byte-identical output. -/
theorem export_idempotent (d1 d2 : HealthData) (h : d1 = d2) :
    export_to_json d1 = export_to_json d2 := by
  rw [h]

/-- Witness for C8: two renderings of one concrete report agree. -/
theorem export_idempotent_witness :
    exHealthData "2024-01-01T00:00:00" 50 .HEALTHY .HEALTHY [] 0
        = exHealthData "2024-01-01T00:00:00" 50 .HEALTHY .HEALTHY [] 0 ∧
    export_to_json (exHealthData "2024-01-01T00:00:00" 50 .HEALTHY .HEALTHY [] 0)
        = export_to_json (exHealthData "2024-01-01T00:00:00" 50 .HEALTHY .HEALTHY [] 0) :=
  ⟨rfl, export_idempotent _ _ rfl⟩
